import Mathlib

/-
Verification of the OpenMusic-FastAPI backend core against its specification.

The Python service layer is shallowly embedded: each service method becomes a
Lean function over an explicit database / cache / queue state, returning an
`Except Err` outcome together with the committed state.  Raised exceptions
become `Except.error` values carrying the state as it stands at the moment of
the raise (all mutations in this code base are committed with explicit
`commit()` calls, so the state paired with an error is exactly what was
committed before the exception).
-/

namespace OpenMusic

/-- Decidable equality for `Except`, so closed runs of the embedded services
can be checked by `decide`. -/
instance instDecEqExcept {ε α : Type} [DecidableEq ε] [DecidableEq α] :
    DecidableEq (Except ε α) := fun
  | .error e, .error f =>
    decidable_of_iff (e = f) ⟨fun h => by rw [h], fun h => by cases h; rfl⟩
  | .error _, .ok _ => .isFalse (fun h => Except.noConfusion h)
  | .ok _, .error _ => .isFalse (fun h => Except.noConfusion h)
  | .ok a, .ok b =>
    decidable_of_iff (a = b) ⟨fun h => by rw [h], fun h => by cases h; rfl⟩

/-- Domain error kinds mirroring app/core/exceptions.py, plus the
library-level errors that can escape the service layer (SQLAlchemy's
ResourceClosedError, and Python ValueError from a failed int() parse);
those unmapped ones surface as 500 internal errors at the boundary. -/
inductive Err where
  | notFound (msg : String)
  | validation (msg : String)
  | authentication (msg : String)
  | forbidden (msg : String)
  | resourceClosed
  | internal (msg : String)
  deriving Repr, DecidableEq

/-- Token pair returned by login and refresh (app/schemas/auth.py AuthToken). -/
structure AuthToken where
  accessToken : String
  refreshToken : String
  deriving Repr, DecidableEq

/-- State of the authentications table (app/models/authentication.py):
`token` is the primary key, so the table is a set of token strings,
modelled as a duplicate-free list. -/
structure AuthState where
  auths : List String
  deriving Repr, DecidableEq

/-- Abstraction of app/core/security.py: JWT creation and verification.
`create_access_token` / `create_refresh_token` are deterministic functions of
the user id here (the source also folds in the current time);
`verify_refresh_token` returns the embedded user id when the signature,
expiry and type tag check out, and `none` otherwise. -/
structure TokenOps where
  verify_refresh_token : String → Option String
  create_access_token : String → String
  create_refresh_token : String → String

namespace AuthService

/-- Embedding of AuthService.refresh_token (app/services/auth_service.py):
look the token up in the authentications table, raise ValidationError when
absent; otherwise delete the row and commit, then verify the signature,
raising AuthenticationError (with the deletion already committed) on
failure; finally issue a new pair and persist the new refresh token. -/
def refresh_token (ops : TokenOps) (s : AuthState) (token : String) :
    Except Err AuthToken × AuthState :=
  if token ∈ s.auths then
    let s1 : AuthState := ⟨s.auths.filter (fun x => x ≠ token)⟩
    match ops.verify_refresh_token token with
    | none => (.error (.authentication "Invalid refresh token signature"), s1)
    | some userId =>
      let newAccess := ops.create_access_token userId
      let newRefresh := ops.create_refresh_token userId
      (.ok ⟨newAccess, newRefresh⟩, ⟨s1.auths ++ [newRefresh]⟩)
  else
    (.error (.validation "Refresh token not found in database"), s)

/-- Embedding of AuthService.logout (app/services/auth_service.py): select
the row for the token; when present delete it and commit; when absent raise
ValidationError. -/
def logout (s : AuthState) (token : String) : Except Err Unit × AuthState :=
  if token ∈ s.auths then
    (.ok (), ⟨s.auths.filter (fun x => x ≠ token)⟩)
  else
    (.error (.validation "Refresh token not found in database"), s)

end AuthService

/-- Concrete token operations used to exercise the auth theorems on closed
inputs: one known refresh token "rt0" owned by user "u0". -/
def opsDemo : TokenOps where
  verify_refresh_token := fun s => if s = "rt0" then some "u0" else none
  create_access_token := fun u => "at-" ++ u
  create_refresh_token := fun u => "rt1-" ++ u

/-- Claim C1: refresh-token rotation is single-use.  `refresh_token` first
looks the token up in the persisted allow-list and fails with the
not-found-style client error (ValidationError, HTTP 400) when absent; when
present it deletes the record before verifying the signature, so even when
verification fails with AuthenticationError the record stays deleted; hence
a second rotation of the same token fails with the not-found error
(assuming the freshly issued refresh token differs from the old one). -/
theorem c1_rotate_single_use (ops : TokenOps) (s : AuthState) (t : String)
    (hfresh : ∀ uid, ops.verify_refresh_token t = some uid →
      ops.create_refresh_token uid ≠ t) :
    (t ∉ s.auths →
      AuthService.refresh_token ops s t =
        (.error (.validation "Refresh token not found in database"), s)) ∧
    (t ∈ s.auths → ops.verify_refresh_token t = none →
      AuthService.refresh_token ops s t =
        (.error (.authentication "Invalid refresh token signature"),
         ⟨s.auths.filter (fun x => x ≠ t)⟩) ∧
      t ∉ (AuthService.refresh_token ops s t).2.auths) ∧
    (t ∈ s.auths →
      (AuthService.refresh_token ops
        (AuthService.refresh_token ops s t).2 t).1 =
        .error (.validation "Refresh token not found in database")) := by
  refine ⟨?_, ?_, ?_⟩
  · intro habs
    simp [AuthService.refresh_token, habs]
  · intro hmem hver
    constructor
    · simp [AuthService.refresh_token, hmem, hver]
    · simp [AuthService.refresh_token, hmem, hver, List.mem_filter]
  · intro hmem
    have hnot : t ∉ (AuthService.refresh_token ops s t).2.auths := by
      unfold AuthService.refresh_token
      simp only [hmem, if_pos]
      cases hver : ops.verify_refresh_token t with
      | none => simp [List.mem_filter]
      | some uid =>
        simp only [List.mem_append, List.mem_filter, List.mem_singleton]
        rintro (⟨-, habs⟩ | habs)
        · simp at habs
        · exact hfresh uid hver habs.symm
    generalize hs2 : (AuthService.refresh_token ops s t).2 = s2 at hnot ⊢
    simp [AuthService.refresh_token, hnot]

/-- Witness for C1: with the concrete demo state holding the single token
"rt0", rotating twice makes the second rotation fail with the not-found
error. -/
theorem c1_rotate_single_use_witness :
    (AuthService.refresh_token opsDemo
      (AuthService.refresh_token opsDemo ⟨["rt0"]⟩ "rt0").2 "rt0").1 =
      .error (.validation "Refresh token not found in database") :=
  (c1_rotate_single_use opsDemo ⟨["rt0"]⟩ "rt0"
    (by intro uid h; simp [opsDemo] at h; subst h; decide)).2.2 (by decide)

/-- Counterexample for claim C3: with an empty authentications table,
`logout` of any token raises ValidationError instead of succeeding, so
revocation is not idempotent as claimed. -/
theorem c3_logout_absent_errors_cex :
    AuthService.logout ⟨[]⟩ "rt0" =
      (.error (.validation "Refresh token not found in database"), ⟨[]⟩) ∧
    (AuthService.logout ⟨[]⟩ "rt0").1 ≠ .ok () := by
  refine ⟨by decide, ?_⟩
  intro h
  simp [AuthService.logout] at h

/-- Claim C3 (amended): `logout` deletes the matching record when it exists;
when no matching record exists it raises
ValidationError "Refresh token not found in database" instead of
succeeding; in both cases no record for the token remains afterwards. -/
theorem c3_logout_amended (s : AuthState) (t : String) :
    (t ∈ s.auths →
      AuthService.logout s t = (.ok (), ⟨s.auths.filter (fun x => x ≠ t)⟩) ∧
      t ∉ (AuthService.logout s t).2.auths) ∧
    (t ∉ s.auths →
      AuthService.logout s t =
        (.error (.validation "Refresh token not found in database"), s) ∧
      t ∉ (AuthService.logout s t).2.auths) := by
  constructor
  · intro hmem
    refine ⟨by simp [AuthService.logout, hmem], ?_⟩
    simp [AuthService.logout, hmem, List.mem_filter]
  · intro habs
    refine ⟨by simp [AuthService.logout, habs], ?_⟩
    simp [AuthService.logout, habs]

/-- Witness for C3 (amended): a present token is deleted and an absent token
raises, with no record remaining either way. -/
theorem c3_logout_amended_witness :
    (AuthService.logout ⟨["rt0"]⟩ "rt0" = (.ok (), ⟨[]⟩) ∧
      "rt0" ∉ (AuthService.logout ⟨["rt0"]⟩ "rt0").2.auths) ∧
    (AuthService.logout ⟨[]⟩ "rt1" =
        (.error (.validation "Refresh token not found in database"), ⟨[]⟩) ∧
      "rt1" ∉ (AuthService.logout ⟨[]⟩ "rt1").2.auths) := by
  constructor
  · have h := (c3_logout_amended ⟨["rt0"]⟩ "rt0").1 (by decide)
    refine ⟨?_, h.2⟩
    rw [h.1]
    decide
  · exact (c3_logout_amended ⟨[]⟩ "rt1").2 (by decide)

/-- Playlist row (app/models/playlist.py): id, name, owner user id. -/
structure Playlist where
  id : String
  name : String
  owner : String
  deriving Repr, DecidableEq

/-- Collaboration row (app/models/collaboration.py): unique (playlist_id,
user_id) pair with its own public id. -/
structure Collaboration where
  id : String
  playlist_id : String
  user_id : String
  deriving Repr, DecidableEq

/-- PlaylistSong row (app/models/playlist_song.py): membership record for a
(playlist, song) pair.  The source has no uniqueness constraint on the pair;
its primary key is a fresh random string with a "ps-" tag, determinized here
as a counter value. -/
structure PlaylistSongRow where
  id : Nat
  playlist_id : String
  song_id : String
  deriving Repr, DecidableEq

/-- Song row (app/models/song.py), restricted to the columns the core
logic reads. -/
structure Song where
  id : String
  title : String
  performer : String
  deriving Repr, DecidableEq

/-- PlaylistActivity row (app/models/playlist_activity.py), minus the
timestamp: activity order is the list order here. -/
structure Activity where
  playlist_id : String
  user_id : String
  song_id : String
  action : String
  deriving Repr, DecidableEq

/-- The relational store as seen by the playlist / collaboration services:
users are reduced to their ids, and the two counters determinize the random
id generators for collaborations and playlist songs. -/
structure DB where
  users : List String
  playlists : List Playlist
  collaborations : List Collaboration
  playlistSongs : List PlaylistSongRow
  songs : List Song
  activities : List Activity
  collabCounter : Nat
  psCounter : Nat
  deriving Repr, DecidableEq

/-- Primary-key lookup on the playlists table. -/
def lookupPlaylist (db : DB) (pid : String) : Option Playlist :=
  db.playlists.find? (fun p => p.id == pid)

/-- Existence query for a Collaboration row for (playlist_id, user_id),
as issued by PlaylistService.verify_playlist_access. -/
def collabExists (db : DB) (pid uid : String) : Bool :=
  db.collaborations.any (fun c => c.playlist_id == pid && c.user_id == uid)

/-- Existence query on the users table by id. -/
def userExists (db : DB) (uid : String) : Bool :=
  db.users.any (fun u => u == uid)

/-- Existence query on the songs table by id. -/
def songExists (db : DB) (sid : String) : Bool :=
  db.songs.any (fun s => s.id == sid)

/-- Which branch of the access check granted access.  The source method
returns None in both grant cases; the marker records which return was
taken. -/
inductive Access where
  | owner
  | collaborator
  deriving Repr, DecidableEq

namespace PlaylistService

/-- Embedding of PlaylistService.verify_playlist_access
(app/services/playlist_service.py): fetch the playlist (NotFoundError when
absent), grant when the requester is the owner, otherwise grant when a
Collaboration row for the pair exists, otherwise raise ForbiddenError. -/
def verify_playlist_access (db : DB) (pid uid : String) : Except Err Access :=
  match lookupPlaylist db pid with
  | none => .error (.notFound "Playlist not found")
  | some p =>
    if p.owner == uid then .ok .owner
    else if collabExists db pid uid then .ok .collaborator
    else .error (.forbidden "You are not entitled to access this resource")

/-- Embedding of PlaylistService.add_song_to_playlist: verify access (owner
or collaborator), verify the song exists (NotFoundError otherwise), then in
one commit insert the PlaylistSong row and one "add" activity row. -/
def add_song_to_playlist (db : DB) (pid sid uid : String) :
    Except Err Unit × DB :=
  match verify_playlist_access db pid uid with
  | .error e => (.error e, db)
  | .ok _ =>
    if songExists db sid then
      (.ok (), { db with
        playlistSongs := db.playlistSongs ++ [⟨db.psCounter, pid, sid⟩],
        activities := db.activities ++ [⟨pid, uid, sid, "add"⟩],
        psCounter := db.psCounter + 1 })
    else (.error (.notFound "Song not found"), db)

/-- Embedding of PlaylistService.delete_song_from_playlist: verify access
(owner or collaborator), then in one commit delete every PlaylistSong row
for the pair and insert one "delete" activity row.  The source performs no
song-existence check on this path. -/
def delete_song_from_playlist (db : DB) (pid sid uid : String) :
    Except Err Unit × DB :=
  match verify_playlist_access db pid uid with
  | .error e => (.error e, db)
  | .ok _ =>
    (.ok (), { db with
      playlistSongs := db.playlistSongs.filter
        (fun r => !(r.playlist_id == pid && r.song_id == sid)),
      activities := db.activities ++ [⟨pid, uid, sid, "delete"⟩] })

end PlaylistService

/-- Claim C5: access resolution follows the fixed decision order — missing
playlist raises NotFoundError; owner match grants Owner; otherwise an
existing Collaboration row grants Collaborator; otherwise ForbiddenError. -/
theorem c5_access_resolution_order (db : DB) (pid uid : String) :
    (lookupPlaylist db pid = none →
      PlaylistService.verify_playlist_access db pid uid =
        .error (.notFound "Playlist not found")) ∧
    (∀ p, lookupPlaylist db pid = some p → p.owner = uid →
      PlaylistService.verify_playlist_access db pid uid = .ok .owner) ∧
    (∀ p, lookupPlaylist db pid = some p → p.owner ≠ uid →
      collabExists db pid uid = true →
      PlaylistService.verify_playlist_access db pid uid = .ok .collaborator) ∧
    (∀ p, lookupPlaylist db pid = some p → p.owner ≠ uid →
      collabExists db pid uid = false →
      PlaylistService.verify_playlist_access db pid uid =
        .error (.forbidden "You are not entitled to access this resource")) := by
  refine ⟨?_, ?_, ?_, ?_⟩
  · intro h
    simp [PlaylistService.verify_playlist_access, h]
  · intro p hp howner
    simp [PlaylistService.verify_playlist_access, hp, howner]
  · intro p hp howner hcoll
    simp [PlaylistService.verify_playlist_access, hp, howner, hcoll]
  · intro p hp howner hcoll
    simp [PlaylistService.verify_playlist_access, hp, howner, hcoll]

/-- Demo store: playlist "p1" owned by "u1", with "u2" as collaborator and
"u3" a stranger; song "s1" exists. -/
def dbDemo : DB where
  users := ["u1", "u2", "u3"]
  playlists := [⟨"p1", "Road Trip", "u1"⟩]
  collaborations := [⟨"collab-0", "p1", "u2"⟩]
  playlistSongs := []
  songs := [⟨"s1", "Song One", "Perf"⟩]
  activities := []
  collabCounter := 1
  psCounter := 0

/-- Witness for C5 on the demo store: missing playlist is NotFound, owner
resolves as Owner, collaborator as Collaborator, stranger as Forbidden. -/
theorem c5_access_resolution_order_witness :
    PlaylistService.verify_playlist_access dbDemo "nope" "u1" =
      .error (.notFound "Playlist not found") ∧
    PlaylistService.verify_playlist_access dbDemo "p1" "u1" = .ok .owner ∧
    PlaylistService.verify_playlist_access dbDemo "p1" "u2" =
      .ok .collaborator ∧
    PlaylistService.verify_playlist_access dbDemo "p1" "u3" =
      .error (.forbidden "You are not entitled to access this resource") :=
  ⟨(c5_access_resolution_order dbDemo "nope" "u1").1 (by decide),
   (c5_access_resolution_order dbDemo "p1" "u1").2.1 ⟨"p1", "Road Trip", "u1"⟩
     (by decide) (by decide),
   (c5_access_resolution_order dbDemo "p1" "u2").2.2.1 ⟨"p1", "Road Trip", "u1"⟩
     (by decide) (by decide) (by decide),
   (c5_access_resolution_order dbDemo "p1" "u3").2.2.2 ⟨"p1", "Road Trip", "u1"⟩
     (by decide) (by decide) (by decide)⟩

/-- Counterexample for claim C6: deleting a nonexistent song from a playlist
does not raise NotFoundError — with song "sX" absent from the songs table,
the owner's delete call succeeds. -/
theorem c6_delete_missing_song_cex :
    songExists dbDemo "sX" = false ∧
    (PlaylistService.delete_song_from_playlist dbDemo "p1" "sX" "u1").1 =
      .ok () := by
  decide

/-- Claim C6 (amended): for an authorized (Owner or Collaborator) user,
`add_song_to_playlist` validates song existence and raises NotFoundError
without mutating when the song is absent, and on success commits the
membership row together with exactly one "add" activity row;
`delete_song_from_playlist` performs no song-existence check — it always
succeeds, removing the matching membership rows and committing exactly one
"delete" activity row in the same transaction. -/
theorem c6_song_mutation_amended (db : DB) (pid sid uid : String) (a : Access)
    (hacc : PlaylistService.verify_playlist_access db pid uid = .ok a) :
    (songExists db sid = false →
      PlaylistService.add_song_to_playlist db pid sid uid =
        (.error (.notFound "Song not found"), db)) ∧
    (songExists db sid = true →
      PlaylistService.add_song_to_playlist db pid sid uid =
        (.ok (), { db with
          playlistSongs := db.playlistSongs ++ [⟨db.psCounter, pid, sid⟩],
          activities := db.activities ++ [⟨pid, uid, sid, "add"⟩],
          psCounter := db.psCounter + 1 })) ∧
    (PlaylistService.delete_song_from_playlist db pid sid uid =
      (.ok (), { db with
        playlistSongs := db.playlistSongs.filter
          (fun r => !(r.playlist_id == pid && r.song_id == sid)),
        activities := db.activities ++ [⟨pid, uid, sid, "delete"⟩] })) := by
  refine ⟨?_, ?_, ?_⟩
  · intro hsong
    simp [PlaylistService.add_song_to_playlist, hacc, hsong]
  · intro hsong
    simp [PlaylistService.add_song_to_playlist, hacc, hsong]
  · simp [PlaylistService.delete_song_from_playlist, hacc]

/-- Witness for C6 (amended) on the demo store: adding a missing song fails
with NotFoundError and changes nothing; adding the existing song "s1"
appends one membership row and one "add" activity; deleting appends one
"delete" activity. -/
theorem c6_song_mutation_amended_witness :
    PlaylistService.add_song_to_playlist dbDemo "p1" "sX" "u1" =
      (.error (.notFound "Song not found"), dbDemo) ∧
    (PlaylistService.add_song_to_playlist dbDemo "p1" "s1" "u1").2.activities =
      [⟨"p1", "u1", "s1", "add"⟩] ∧
    (PlaylistService.delete_song_from_playlist dbDemo "p1" "s1" "u1").2.activities =
      [⟨"p1", "u1", "s1", "delete"⟩] := by
  refine ⟨(c6_song_mutation_amended dbDemo "p1" "sX" "u1" .owner
      (by decide)).1 (by decide), ?_, ?_⟩
  · rw [(c6_song_mutation_amended dbDemo "p1" "s1" "u1" .owner
      (by decide)).2.1 (by decide)]
    decide
  · rw [(c6_song_mutation_amended dbDemo "p1" "s1" "u1" .owner
      (by decide)).2.2]
    decide

/-- Claim C9: playlist-song membership is not deduplicated.  Starting from a
store with no membership row and no "add" activity for the pair, an
authorized user adding the same song twice succeeds both times and leaves
two membership rows for the pair, with distinct primary keys, together with
two "add" activity rows. -/
theorem c9_add_song_no_dedup (db : DB) (pid sid uid : String) (a : Access)
    (hacc : PlaylistService.verify_playlist_access db pid uid = .ok a)
    (hsong : songExists db sid = true)
    (hrows : db.playlistSongs.filter
      (fun r => r.playlist_id == pid && r.song_id == sid) = [])
    (hacts : db.activities.filter
      (fun x => x == (⟨pid, uid, sid, "add"⟩ : Activity)) = []) :
    (PlaylistService.add_song_to_playlist db pid sid uid).1 = .ok () ∧
    (PlaylistService.add_song_to_playlist
      (PlaylistService.add_song_to_playlist db pid sid uid).2 pid sid uid).1 =
      .ok () ∧
    ((PlaylistService.add_song_to_playlist
        (PlaylistService.add_song_to_playlist db pid sid uid).2
        pid sid uid).2.playlistSongs.filter
      (fun r => r.playlist_id == pid && r.song_id == sid)) =
      [⟨db.psCounter, pid, sid⟩, ⟨db.psCounter + 1, pid, sid⟩] ∧
    db.psCounter ≠ db.psCounter + 1 ∧
    ((PlaylistService.add_song_to_playlist
        (PlaylistService.add_song_to_playlist db pid sid uid).2
        pid sid uid).2.activities.filter
      (fun x => x == (⟨pid, uid, sid, "add"⟩ : Activity))).length = 2 := by
  have h1 : PlaylistService.add_song_to_playlist db pid sid uid =
      (.ok (), { db with
        playlistSongs := db.playlistSongs ++ [⟨db.psCounter, pid, sid⟩],
        activities := db.activities ++ [⟨pid, uid, sid, "add"⟩],
        psCounter := db.psCounter + 1 }) := by
    simp [PlaylistService.add_song_to_playlist, hacc, hsong]
  have hacc2 : PlaylistService.verify_playlist_access
      (PlaylistService.add_song_to_playlist db pid sid uid).2 pid uid =
      .ok a := by
    rw [h1]; exact hacc
  have hsong2 : songExists
      (PlaylistService.add_song_to_playlist db pid sid uid).2 sid = true := by
    rw [h1]; exact hsong
  have h2 : PlaylistService.add_song_to_playlist
      (PlaylistService.add_song_to_playlist db pid sid uid).2 pid sid uid =
      (.ok (), { db with
        playlistSongs := (db.playlistSongs ++ [⟨db.psCounter, pid, sid⟩]) ++
          [⟨db.psCounter + 1, pid, sid⟩],
        activities := (db.activities ++ [⟨pid, uid, sid, "add"⟩]) ++
          [⟨pid, uid, sid, "add"⟩],
        psCounter := db.psCounter + 1 + 1 }) := by
    rw [h1] at hacc2 hsong2 ⊢
    simp [PlaylistService.add_song_to_playlist, hacc2, hsong2]
  refine ⟨by rw [h1], by rw [h2], ?_, by omega, ?_⟩
  · rw [h2]
    simp [List.filter_append, hrows]
  · rw [h2]
    simp [List.filter_append, hacts]

/-- Witness for C9 on the demo store: the collaborator "u2" adds song "s1"
twice; both membership rows for the pair survive with distinct ids, and two
"add" activities are logged. -/
theorem c9_add_song_no_dedup_witness :
    (PlaylistService.add_song_to_playlist
      (PlaylistService.add_song_to_playlist dbDemo "p1" "s1" "u2").2
      "p1" "s1" "u2").1 = .ok () ∧
    ((PlaylistService.add_song_to_playlist
        (PlaylistService.add_song_to_playlist dbDemo "p1" "s1" "u2").2
        "p1" "s1" "u2").2.playlistSongs.filter
      (fun r => r.playlist_id == "p1" && r.song_id == "s1")) =
      [⟨0, "p1", "s1"⟩, ⟨1, "p1", "s1"⟩] ∧
    ((PlaylistService.add_song_to_playlist
        (PlaylistService.add_song_to_playlist dbDemo "p1" "s1" "u2").2
        "p1" "s1" "u2").2.activities.filter
      (fun x => x == (⟨"p1", "u2", "s1", "add"⟩ : Activity))).length = 2 := by
  have h := c9_add_song_no_dedup dbDemo "p1" "s1" "u2" .collaborator
    (by decide) (by decide) (by decide) (by decide)
  exact ⟨h.2.1, h.2.2.1, h.2.2.2.2⟩

/-- A SQLAlchemy `Result` as returned by `session.execute`: a buffered row
set that is consumed (and hard-closed) by the one-row accessor methods.
`rows` are the rows matched by the statement; `closed` records whether the
result has already been consumed. -/
structure SAResult (α : Type) where
  rows : List α
  closed : Bool
  deriving Repr, DecidableEq

/-- SQLAlchemy Result.scalar_one_or_none: returns the single row (or none
for an empty set), hard-closing the result; raises MultipleResultsFound on
more than one row and ResourceClosedError when the result was already
consumed. -/
def scalar_one_or_none {α : Type} (r : SAResult α) :
    Except Err (Option α) × SAResult α :=
  if r.closed then (.error .resourceClosed, r)
  else
    match r.rows with
    | [] => (.ok none, { r with closed := true })
    | [x] => (.ok (some x), { r with closed := true })
    | _ => (.error (.internal "Multiple rows were found"), { r with closed := true })

/-- SQLAlchemy Result.scalar_one: returns the single row, raising
NoResultFound / MultipleResultsFound otherwise, and ResourceClosedError when
the result was already consumed. -/
def scalar_one {α : Type} (r : SAResult α) : Except Err α :=
  if r.closed then .error .resourceClosed
  else
    match r.rows with
    | [x] => .ok x
    | [] => .error (.internal "No row was found")
    | _ => .error (.internal "Multiple rows were found")

namespace CollaborationService

/-- Embedding of CollaborationService.add_collaboration
(app/services/collaboration_service.py): verify playlist (NotFoundError),
strict ownership (ForbiddenError), target user existence (NotFoundError);
then execute the duplicate-check select.  On a duplicate the source calls
`result_collab.scalar_one()` on the same Result object it already consumed
with `scalar_one_or_none()`, which raises ResourceClosedError; otherwise a
fresh Collaboration row is inserted and its id returned.  The fresh id is
the source's random "collab-" shortuuid, determinized by `collabCounter`. -/
def add_collaboration (db : DB) (pid uid owner_id : String) :
    Except Err String × DB :=
  match lookupPlaylist db pid with
  | none => (.error (.notFound "Playlist not found"), db)
  | some p =>
    if p.owner != owner_id then
      (.error (.forbidden "You are not entitled to access this resource"), db)
    else if !userExists db uid then
      (.error (.notFound "User not found"), db)
    else
      let result_collab : SAResult Collaboration :=
        ⟨db.collaborations.filter
          (fun c => c.playlist_id == pid && c.user_id == uid), false⟩
      match scalar_one_or_none result_collab with
      | (.error e, _) => (.error e, db)
      | (.ok (some _), consumed) =>
        -- duplicate branch: second consumption of the same Result
        (match scalar_one consumed with
         | .error e => (.error e, db)
         | .ok c => (.ok c.id, db))
      | (.ok none, _) =>
        let newId := "collab-" ++ toString db.collabCounter
        (.ok newId, { db with
          collaborations := db.collaborations ++ [⟨newId, pid, uid⟩],
          collabCounter := db.collabCounter + 1 })

end CollaborationService

/-- Demo store without any collaboration yet, for exercising
add_collaboration from a clean state. -/
def dbNoCollab : DB where
  users := ["u1", "u2"]
  playlists := [⟨"p1", "Road Trip", "u1"⟩]
  collaborations := []
  playlistSongs := []
  songs := []
  activities := []
  collabCounter := 0
  psCounter := 0

/-- Claim C4 (code bug): adding a collaborator is not idempotent in the
implementation.  From a clean store the first add_collaboration succeeds
and returns the new collaboration id, but repeating the same call hits the
duplicate branch, where the already-consumed SQLAlchemy Result is read a
second time with scalar_one(), raising ResourceClosedError (an unmapped
internal error) instead of returning the existing id. -/
theorem c4_add_collaboration_duplicate_raises :
    CollaborationService.add_collaboration dbNoCollab "p1" "u2" "u1" =
      (.ok "collab-0", { dbNoCollab with
        collaborations := [⟨"collab-0", "p1", "u2"⟩],
        collabCounter := 1 }) ∧
    (CollaborationService.add_collaboration
      (CollaborationService.add_collaboration dbNoCollab "p1" "u2" "u1").2
      "p1" "u2" "u1").1 = .error .resourceClosed := by
  decide

/-- Message published to the durable "export:playlist" queue
(app/services/producer_service.py): a flat JSON object with the playlist id
and the target email. -/
structure ExportMessage where
  playlistId : String
  targetEmail : String
  deriving Repr, DecidableEq

/-- Success envelope returned by the export endpoint. -/
structure ExportResponse where
  status : String
  message : String
  deriving Repr, DecidableEq

/-- Modelled from the spec: `PlaylistService.get_playlist_by_id` is called
by the export endpoint (app/api/v1/endpoints/exports.py) and mocked by the
integration tests, but no such method is defined in
app/services/playlist_service.py.  The spec's producer section reads
"fetch playlist; 404 if missing", so the fetch is modelled as the
primary-key lookup returning the playlist when present. -/
def get_playlist_by_id (db : DB) (pid : String) : Option Playlist :=
  lookupPlaylist db pid

/-- Embedding of the export_playlist endpoint
(app/api/v1/endpoints/exports.py): fetch the playlist (NotFoundError when
missing), require strict ownership (ForbiddenError otherwise), then publish
one message to the "export:playlist" queue and return the success envelope
immediately — no email is sent on this path, so the call never waits on
mail delivery.  The queue is the list of pending messages; publishing
appends. -/
def export_playlist (db : DB) (queue : List ExportMessage)
    (pid targetEmail current_user : String) :
    Except Err ExportResponse × List ExportMessage :=
  match get_playlist_by_id db pid with
  | none => (.error (.notFound "Playlist not found"), queue)
  | some p =>
    if p.owner != current_user then
      (.error (.forbidden "You are not entitled to access this resource"),
        queue)
    else
      (.ok ⟨"success", "Permintaan Anda sedang kami proses"⟩,
        queue ++ [⟨pid, targetEmail⟩])

/-- Claim C2: requesting an export fails with NotFoundError when the
playlist is missing; fails with ForbiddenError for every requester other
than the owner (collaboration rows are never consulted on this path); and
for the owner publishes exactly one message with the playlist id and target
email to the export queue and returns the success envelope, with no mail
interaction. -/
theorem c2_export_owner_only (db : DB) (queue : List ExportMessage)
    (pid email u : String) :
    (get_playlist_by_id db pid = none →
      export_playlist db queue pid email u =
        (.error (.notFound "Playlist not found"), queue)) ∧
    (∀ p, get_playlist_by_id db pid = some p → p.owner ≠ u →
      export_playlist db queue pid email u =
        (.error (.forbidden "You are not entitled to access this resource"),
          queue)) ∧
    (∀ p, get_playlist_by_id db pid = some p → p.owner = u →
      export_playlist db queue pid email u =
        (.ok ⟨"success", "Permintaan Anda sedang kami proses"⟩,
          queue ++ [⟨pid, email⟩])) := by
  refine ⟨?_, ?_, ?_⟩
  · intro h
    simp [export_playlist, h]
  · intro p hp howner
    simp [export_playlist, hp, howner]
  · intro p hp howner
    simp [export_playlist, hp, howner]

/-- Witness for C2 on the demo store: a missing playlist is NotFound, the
collaborator "u2" is Forbidden, and the owner "u1" gets success with
exactly the one message appended to the queue. -/
theorem c2_export_owner_only_witness :
    export_playlist dbDemo [] "nope" "a@b.c" "u1" =
      (.error (.notFound "Playlist not found"), []) ∧
    export_playlist dbDemo [] "p1" "a@b.c" "u2" =
      (.error (.forbidden "You are not entitled to access this resource"),
        []) ∧
    export_playlist dbDemo [] "p1" "a@b.c" "u1" =
      (.ok ⟨"success", "Permintaan Anda sedang kami proses"⟩,
        [⟨"p1", "a@b.c"⟩]) :=
  ⟨(c2_export_owner_only dbDemo [] "nope" "a@b.c" "u1").1 (by decide),
   (c2_export_owner_only dbDemo [] "p1" "a@b.c" "u2").2.1
     ⟨"p1", "Road Trip", "u1"⟩ (by decide) (by decide),
   (c2_export_owner_only dbDemo [] "p1" "a@b.c" "u1").2.2
     ⟨"p1", "Road Trip", "u1"⟩ (by decide) (by decide)⟩

/-- Failure kinds that can be raised inside the consumer's message handler
(app/consumer.py): JSONDecodeError from json.loads, KeyError from the
payload field accesses, ValueError from get_playlist_data on a missing
playlist, and any other exception (for example from mail sending). -/
inductive ConsumerErr where
  | jsonDecode
  | keyError (field : String)
  | valueError (msg : String)
  | exception (msg : String)
  deriving Repr, DecidableEq

/-- Log entry written by the consumer for one message. -/
inductive ConsumerLog where
  | successLog (pid : String)
  | errorLog (e : ConsumerErr)
  deriving Repr, DecidableEq

/-- Outcome of processing one queue message: whether the broker message was
acknowledged, and what was logged. -/
structure ProcessOutcome where
  acked : Bool
  logged : ConsumerLog
  deriving Repr, DecidableEq

/-- Python dict subscript `payload[k]`: the value when the key is present,
a KeyError otherwise. -/
def dictGet (payload : List (String × String)) (k : String) :
    Except ConsumerErr String :=
  match payload.find? (fun kv => kv.1 == k) with
  | some kv => .ok kv.2
  | none => .error (.keyError k)

/-- Embedding of Consumer.get_playlist_data (app/consumer.py): fetch the
playlist row by id, raising ValueError when it does not exist; the
successful case (playlist name, owner and joined songs) is reduced to the
playlist id, which is all process_message's control flow depends on. -/
def get_playlist_data (db : DB) (pid : String) : Except ConsumerErr String :=
  match lookupPlaylist db pid with
  | none => .error (.valueError ("Playlist with ID " ++ pid ++ " not found"))
  | some p => .ok p.id

/-- The try-block of Consumer.process_message: decode the JSON body
(`none` models a body that json.loads rejects), read the two payload
fields, fetch the playlist data, then send the email (`mailOk = false`
models mail_service.send_email raising). -/
def processAttempt (db : DB) (mailOk : Bool)
    (body : Option (List (String × String))) : Except ConsumerErr String :=
  match body with
  | none => .error .jsonDecode
  | some payload => do
    let pid ← dictGet payload "playlistId"
    let _ ← dictGet payload "targetEmail"
    let _ ← get_playlist_data db pid
    if mailOk then pure pid else .error (.exception "mail send failed")

/-- Embedding of Consumer.process_message (app/consumer.py): the try-block
runs inside `async with message.process()`, and every exception it can
raise is caught by one of the except clauses (JSONDecodeError, KeyError,
ValueError, or the catch-all Exception) and logged, so the context manager
always exits normally and acknowledges the message. -/
def process_message (db : DB) (mailOk : Bool)
    (body : Option (List (String × String))) : ProcessOutcome :=
  match processAttempt db mailOk body with
  | .ok pid => ⟨true, .successLog pid⟩
  | .error e => ⟨true, .errorLog e⟩

/-- Claim C7: the consumer isolates failures per message — for every
incoming message the handler returns an outcome (it never propagates an
error), the message is acknowledged whether the attempt succeeded or
failed, and each failing attempt (malformed JSON, missing field, missing
playlist, mail error) is logged rather than re-raised. -/
theorem c7_consumer_failure_isolation (db : DB) (mailOk : Bool)
    (body : Option (List (String × String))) :
    (process_message db mailOk body).acked = true ∧
    (∀ e, processAttempt db mailOk body = .error e →
      (process_message db mailOk body).logged = .errorLog e) ∧
    (∀ pid, processAttempt db mailOk body = .ok pid →
      (process_message db mailOk body).logged = .successLog pid) := by
  refine ⟨?_, ?_, ?_⟩
  · unfold process_message
    cases processAttempt db mailOk body <;> rfl
  · intro e he
    simp [process_message, he]
  · intro pid hp
    simp [process_message, hp]

/-- Witness for C7: a malformed body, a missing playlist, and a mail
failure are each acknowledged and logged on the demo store, as is the
successful attempt. -/
theorem c7_consumer_failure_isolation_witness :
    (process_message dbDemo true none).acked = true ∧
    (process_message dbDemo true none).logged = .errorLog .jsonDecode ∧
    (process_message dbDemo false
      (some [("playlistId", "p1"), ("targetEmail", "a@b.c")])).logged =
      .errorLog (.exception "mail send failed") ∧
    (process_message dbDemo true
      (some [("playlistId", "p1"), ("targetEmail", "a@b.c")])).logged =
      .successLog "p1" :=
  ⟨(c7_consumer_failure_isolation dbDemo true none).1,
   (c7_consumer_failure_isolation dbDemo true none).2.1 .jsonDecode
     (by decide),
   (c7_consumer_failure_isolation dbDemo false
     (some [("playlistId", "p1"), ("targetEmail", "a@b.c")])).2.1
     (.exception "mail send failed") (by decide),
   (c7_consumer_failure_isolation dbDemo true
     (some [("playlistId", "p1"), ("targetEmail", "a@b.c")])).2.2 "p1"
     (by decide)⟩

/-- One Redis key with its stored string value and the TTL it was set
with. -/
structure CacheEntry where
  key : String
  value : String
  ttl : Nat
  deriving Repr, DecidableEq

/-- The Redis cache as seen by CacheService (app/services/cache_service.py):
the stored entries, plus a `failing` flag modelling a Redis connection that
raises RedisError on every operation. -/
structure Cache where
  entries : List CacheEntry
  failing : Bool
  deriving Repr, DecidableEq

namespace CacheService

/-- Embedding of CacheService.get: the stored value for the key, or none
when absent; a RedisError is caught and reported as none (cache miss). -/
def get (c : Cache) (k : String) : Option String :=
  if c.failing then none
  else
    match c.entries.find? (fun e => e.key == k) with
    | some e => some e.value
    | none => none

/-- Embedding of CacheService.set: store the value under the key with the
given TTL (overwriting any previous entry) and report true; a RedisError is
caught and reported as false, leaving the cache unchanged. -/
def set (c : Cache) (k v : String) (ttl : Nat) : Cache × Bool :=
  if c.failing then (c, false)
  else
    ({ c with entries :=
        ⟨k, v, ttl⟩ :: c.entries.filter (fun e => !(e.key == k)) }, true)

/-- Embedding of CacheService.delete: drop the key and report true; a
RedisError is caught and reported as false. -/
def delete (c : Cache) (k : String) : Cache × Bool :=
  if c.failing then (c, false)
  else ({ c with entries := c.entries.filter (fun e => !(e.key == k)) }, true)

end CacheService

/-- Store slice used by the like endpoints: album ids and the
user_album_likes rows (user_id, album_id). -/
structure LikeDB where
  albums : List String
  likes : List (String × String)
  deriving Repr, DecidableEq

namespace LikeService

/-- Embedding of LikeService.get_likes_count: count of user_album_likes
rows for the album (the source's `or 0` only renames an empty count). -/
def get_likes_count (db : LikeDB) (aid : String) : Nat :=
  (db.likes.filter (fun l => l.2 == aid)).length

/-- Embedding of LikeService._check_album_exists: NotFoundError when no
Album row has the id. -/
def check_album_exists (db : LikeDB) (aid : String) : Except Err Unit :=
  if db.albums.contains aid then .ok ()
  else .error (.notFound "Album not found")

/-- Embedding of LikeService.add_like: check the album exists, then the
already-liked guard (ValidationError), then insert the like row.  The
IntegrityError fallback in the source is unreachable in this sequential
model because the pre-check already covers the unique pair. -/
def add_like (db : LikeDB) (uid aid : String) : Except Err Unit × LikeDB :=
  match check_album_exists db aid with
  | .error e => (.error e, db)
  | .ok _ =>
    if db.likes.contains (uid, aid) then
      (.error (.validation "You have already liked this album"), db)
    else
      (.ok (), { db with likes := db.likes ++ [(uid, aid)] })

end LikeService

/-- Cache TTL constant of app/api/v1/endpoints/album_likes.py (30 min). -/
def CACHE_TTL : Nat := 1800

/-- Cache key "likes:" followed by the album id. -/
def get_likes_cache_key (aid : String) : String := "likes:" ++ aid

/-- Decimal value of a digit list, most significant first. -/
def natOfDigits (ds : List Char) : Nat :=
  ds.foldl (fun acc c => 10 * acc + (c.toNat - 48)) 0

/-- Python int() applied to the cached string: an optional minus sign
followed by decimal digits.  This is the exact grammar of every value the
endpoint writes (str(count)); the surface syntax int() additionally accepts
(whitespace, a plus sign, underscores) never reaches the cache. -/
def pyInt (s : String) : Option Int :=
  match s.data with
  | [] => none
  | '-' :: ds =>
    if ds ≠ [] ∧ ds.all Char.isDigit then some (-(natOfDigits ds : Int))
    else none
  | ds =>
    if ds.all Char.isDigit then some (natOfDigits ds : Int) else none

/-- Response of the likes-count endpoint: the count and whether the
X-Data-Source header marked it as served from the cache. -/
structure LikesResponse where
  likes : Int
  fromCache : Bool
  deriving Repr, DecidableEq

/-- Embedding of the get_album_likes endpoint
(app/api/v1/endpoints/album_likes.py): try the cache first; on a hit parse
the cached string with int() (an unparsable value raises out of the
handler) and mark the response cache-sourced; on a miss count from the
store, write the count into the cache with CACHE_TTL and return it. -/
def get_album_likes (db : LikeDB) (c : Cache) (aid : String) :
    Except Err LikesResponse × Cache :=
  let key := get_likes_cache_key aid
  match CacheService.get c key with
  | some v =>
    match pyInt v with
    | some n => (.ok ⟨n, true⟩, c)
    | none => (.error (.internal "invalid literal for int"), c)
  | none =>
    let count := LikeService.get_likes_count db aid
    ((.ok ⟨(count : Int), false⟩),
      (CacheService.set c key (toString count) CACHE_TTL).1)

/-- Claim C8: the likes-count read follows the cache-aside path — a cache
hit returns the cached value parsed as an integer, marked cache-sourced,
without touching the store; a miss returns the store count and writes it
into the cache under the "likes:" key with TTL 1800; and a failing cache
layer behaves as a miss, so the request still succeeds from the store. -/
theorem c8_cache_aside_read (db : LikeDB) (c : Cache) (aid : String) :
    (∀ v n, CacheService.get c (get_likes_cache_key aid) = some v →
      pyInt v = some n →
      get_album_likes db c aid = (.ok ⟨n, true⟩, c)) ∧
    (CacheService.get c (get_likes_cache_key aid) = none →
      get_album_likes db c aid =
        (.ok ⟨(LikeService.get_likes_count db aid : Int), false⟩,
          (CacheService.set c (get_likes_cache_key aid)
            (toString (LikeService.get_likes_count db aid)) 1800).1)) ∧
    (CacheService.get c (get_likes_cache_key aid) = none →
      c.failing = false →
      (get_album_likes db c aid).2.entries.head? =
        some ⟨get_likes_cache_key aid,
          toString (LikeService.get_likes_count db aid), 1800⟩) ∧
    (c.failing = true →
      get_album_likes db c aid =
        (.ok ⟨(LikeService.get_likes_count db aid : Int), false⟩, c)) := by
  refine ⟨?_, ?_, ?_, ?_⟩
  · intro v n hv hn
    simp [get_album_likes, hv, hn]
  · intro hmiss
    simp [get_album_likes, hmiss, CACHE_TTL]
  · intro hmiss hok
    simp [get_album_likes, hmiss, CacheService.set, hok, CACHE_TTL]
  · intro hfail
    have hmiss : CacheService.get c (get_likes_cache_key aid) = none := by
      simp [CacheService.get, hfail]
    simp [get_album_likes, hmiss, CacheService.set, hfail]

/-- Demo store for the like endpoints: album "a1" with two likes. -/
def likeDbDemo : LikeDB where
  albums := ["a1"]
  likes := [("u1", "a1"), ("u2", "a1")]

/-- Witness for C8 on the demo store: a cached "5" is served as 5 from the
cache; an empty cache serves the store count 2 and caches "2" with TTL
1800; a failing cache still serves 2 from the store. -/
theorem c8_cache_aside_read_witness :
    get_album_likes likeDbDemo ⟨[⟨"likes:a1", "5", 100⟩], false⟩ "a1" =
      (.ok ⟨5, true⟩, ⟨[⟨"likes:a1", "5", 100⟩], false⟩) ∧
    get_album_likes likeDbDemo ⟨[], false⟩ "a1" =
      (.ok ⟨2, false⟩, ⟨[⟨"likes:a1", "2", 1800⟩], false⟩) ∧
    get_album_likes likeDbDemo ⟨[], true⟩ "a1" =
      (.ok ⟨2, false⟩, ⟨[], true⟩) :=
  ⟨(c8_cache_aside_read likeDbDemo ⟨[⟨"likes:a1", "5", 100⟩], false⟩ "a1").1
     "5" 5 (by decide) (by decide),
   by
     have h := (c8_cache_aside_read likeDbDemo ⟨[], false⟩ "a1").2.1
       (by decide)
     rw [h]; decide,
   by
     have h := (c8_cache_aside_read likeDbDemo ⟨[], true⟩ "a1").2.2.2 rfl
     rw [h]; decide⟩

/-- Claim C10: reading the like count of a nonexistent album succeeds with
0 (given the foreign-key invariant that every like row references an
existing album) and caches "0" under the "likes:" key with TTL 1800 on a
miss, while add_like for the same id raises NotFoundError — only the
mutation path checks album existence. -/
theorem c10_missing_album_reads_zero (db : LikeDB) (c : Cache)
    (aid uid : String)
    (habs : db.albums.contains aid = false)
    (hfk : ∀ l ∈ db.likes, db.albums.contains l.2 = true)
    (hmiss : CacheService.get c (get_likes_cache_key aid) = none) :
    LikeService.get_likes_count db aid = 0 ∧
    get_album_likes db c aid =
      (.ok ⟨0, false⟩,
        (CacheService.set c (get_likes_cache_key aid) "0" 1800).1) ∧
    LikeService.add_like db uid aid = (.error (.notFound "Album not found"), db) := by
  have hcount : LikeService.get_likes_count db aid = 0 := by
    unfold LikeService.get_likes_count
    rw [List.length_eq_zero, List.filter_eq_nil_iff]
    intro l hl
    simp only [beq_iff_eq]
    intro heq
    have hmem := hfk l hl
    rw [heq] at hmem
    exact Bool.noConfusion (hmem.symm.trans habs)
  have habs' : aid ∉ db.albums := by simpa using habs
  refine ⟨hcount, ?_, ?_⟩
  · have h := (c8_cache_aside_read db c aid).2.1 hmiss
    rw [h, hcount]
    rfl
  · simp [LikeService.add_like, LikeService.check_album_exists, habs']

/-- Witness for C10: album "aX" has no row in the demo store; its count
reads as 0 and is cached, while liking it raises NotFoundError. -/
theorem c10_missing_album_reads_zero_witness :
    LikeService.get_likes_count likeDbDemo "aX" = 0 ∧
    get_album_likes likeDbDemo ⟨[], false⟩ "aX" =
      (.ok ⟨0, false⟩, ⟨[⟨"likes:aX", "0", 1800⟩], false⟩) ∧
    LikeService.add_like likeDbDemo "u1" "aX" =
      (.error (.notFound "Album not found"), likeDbDemo) := by
  have h := c10_missing_album_reads_zero likeDbDemo ⟨[], false⟩ "aX" "u1"
    (by decide) (by decide) (by decide)
  refine ⟨h.1, ?_, h.2.2⟩
  rw [h.2.1]
  decide

end OpenMusic
